import Mathlib

/-
Verification of the live-f1 packet reducers (src/packet.c) against the
natural-language specification.

The two reducers `handle_car_packet` and `handle_system_packet` of
src/packet.c are shallowly embedded below.  C arrays indexed by
car-number-minus-one are modelled as total functions from the 0-based
index; only indices below `num_cars` are ever read by the code, so values
outside that range are unobservable.  Machine `unsigned int` arithmetic is
modelled as Nat arithmetic modulo 2 ^ 32.  Calls to the decryption /
key-frame collaborators are modelled as an output trace (`SysCall`);
display calls (clear_board, update_cell, ...) render state and do not
mutate it, so they are not part of the state model.

Packets carry `payload` as the list of wire bytes; `len` is the C `len`
field (negative means the no-payload sentinel, and when `len` is
non-negative a well-formed packet has exactly `len` payload bytes).
-/

/-- CAR_POSITION_UPDATE car-packet type.  Modelled from the spec: the
numeric catalogue lives in packet.h, absent from src; the spec treats the
catalogues as opaque enumerations, so distinct numerals are chosen
(matching upstream live-f1). -/
def CAR_POSITION_UPDATE : Nat := 0

/-- CAR_POSITION_HISTORY car-packet type.  Modelled from the spec: value
from the packet.h catalogue, absent from src. -/
def CAR_POSITION_HISTORY : Nat := 15

/-- LAST_CAR_PACKET, the size of each per-car atom table.  Modelled from
the spec: value from packet.h, absent from src. -/
def LAST_CAR_PACKET : Nat := 16

/-- SYS_EVENT_ID system-packet type.  Modelled from the spec: value from
the packet.h catalogue, absent from src. -/
def SYS_EVENT_ID : Nat := 1

/-- SYS_KEY_FRAME system-packet type.  Modelled from the spec: value from
the packet.h catalogue, absent from src. -/
def SYS_KEY_FRAME : Nat := 2

/-- SYS_NOTICE system-packet type.  Modelled from the spec: value from
the packet.h catalogue, absent from src. -/
def SYS_NOTICE : Nat := 6

/-- SYS_WEATHER system-packet type.  Modelled from the spec: value from
the packet.h catalogue, absent from src. -/
def SYS_WEATHER : Nat := 9

/-- SYS_TRACK_STATUS system-packet type.  Modelled from the spec: value
from the packet.h catalogue, absent from src. -/
def SYS_TRACK_STATUS : Nat := 11

/-- SYS_COPYRIGHT system-packet type.  Modelled from the spec: value from
the packet.h catalogue, absent from src. -/
def SYS_COPYRIGHT : Nat := 12

/-- CarAtom (display.h, absent from src): the last-known value of one
field of one car.  `data` is the colour/status code; `text` is the stored
text, modelled as the list of bytes the C code copies into the fixed
`char` buffer. -/
structure CarAtom where
  data : Int
  text : List Nat
deriving DecidableEq

/-- A decoded packet, as handed to the reducers (packet.h, absent from
src; shape as described by the spec).  `car` is the 1-based car id (0 for
system packets), `type` the scope-specific type code, `data` the
type-specific integer, `len` the signed length and `payload` the wire
bytes. -/
structure Packet where
  car : Nat
  type : Nat
  data : Int
  len : Int
  payload : List Nat

/-- CurrentState: the race state mutated by the reducers.  Array fields
are total functions over the 0-based car index; only indices below
`num_cars` are observable. -/
structure CurrentState where
  event_no : Nat
  event_type : Int
  epoch_time : Nat
  remaining_time : Nat
  lap : Nat
  flag : Int
  key : Nat
  frame : Nat
  num_cars : Nat
  car_position : Nat → Int
  car_info : Nat → Nat → CarAtom

/-- Entity-table growth, lines 56-75 of packet.c (the spec's
`ensure_car`): when `car` exceeds `num_cars`, the arrays grow to `car`
entries, each new entry getting position 0 and a zeroed atom table;
existing entries are preserved (realloc semantics). -/
def ensure_car (s : CurrentState) (car : Nat) : CurrentState :=
  if s.num_cars < car then
    { s with
      num_cars := car
      car_position := fun i =>
        if s.num_cars ≤ i ∧ i < car then 0 else s.car_position i
      car_info := fun i =>
        if s.num_cars ≤ i ∧ i < car then fun _ => ⟨0, []⟩ else s.car_info i }
  else
    s

/-- handle_car_packet, lines 45-120 of packet.c.  Grows the entity table
if needed, then dispatches on the car-packet type: position update (clear
duplicate holders of the new position, then assign), position history
(no-op), and the default data-atom write (colour always, text only when
`len` is non-negative — the C code strcpy's the payload). -/
def handle_car_packet (s : CurrentState) (p : Packet) : CurrentState :=
  let s1 := ensure_car s p.car
  if p.type = CAR_POSITION_UPDATE then
    let cleared := fun i =>
      if i < s1.num_cars ∧ s1.car_position i = p.data then 0
      else s1.car_position i
    { s1 with car_position := fun i =>
        if i = p.car - 1 then p.data else cleared i }
  else if p.type = CAR_POSITION_HISTORY then
    s1
  else
    { s1 with car_info := fun i =>
        if i = p.car - 1 then fun t =>
          if t = p.type then
            { data := p.data
              text := if 0 ≤ p.len then p.payload else (s1.car_info i t).text }
          else s1.car_info i t
        else s1.car_info i }

/-- One call to an external collaborator, recorded in order of issue. -/
inductive SysCall where
  | obtainKey : Nat → SysCall
  | resetDec : SysCall
  | obtainFrame : Nat → SysCall
deriving DecidableEq

/-- Event-number decoding, lines 145-149 of packet.c: skip the first
payload byte, then `number = number * 10 + (byte - 48)` over the rest, in
`unsigned int` arithmetic (modulo 2 ^ 32; the subtraction of 48 wraps). -/
def decode_event_no (payload : List Nat) : Nat :=
  (payload.drop 1).foldl (fun n b => (n * 10 + b + (2 ^ 32 - 48)) % 2 ^ 32) 0

/-- Key-frame number decoding, lines 181-186 of packet.c: bytes are
consumed from the last to the first, `number = (number << 8) | byte`, in
`unsigned int` arithmetic — the little-endian value of the payload. -/
def decode_frame (payload : List Nat) : Nat :=
  payload.reverse.foldl (fun n b => (n * 256 % 2 ^ 32) ||| b) 0

/-- Session-clock duration parsing, lines 225-238 of packet.c: scanning
the payload, a colon (byte 58) folds `total = total * 60 + number` and
resets `number`, any other byte accumulates `number = number * 10 +
(byte - 48)`; one final fold after the scan.  `unsigned int` arithmetic
(modulo 2 ^ 32). -/
def parse_duration (payload : List Nat) : Nat :=
  let st := payload.foldl
    (fun tn b =>
      if b = 58 then ((tn.1 * 60 + tn.2) % 2 ^ 32, 0)
      else (tn.1, (tn.2 * 10 + b + (2 ^ 32 - 48)) % 2 ^ 32))
    (0, 0)
  (st.1 * 60 + st.2) % 2 ^ 32

/-- handle_system_packet, lines 129-297 of packet.c.  `now` models the
wall-clock `time (NULL)`; `provided` models the key returned by the
`obtain_decryption_key` collaborator.  Returns the new state and the
trace of collaborator calls made, in order. -/
def handle_system_packet (now : Nat) (provided : Nat) (s : CurrentState)
    (p : Packet) : CurrentState × List SysCall :=
  if p.type = SYS_EVENT_ID then
    let number := decode_event_no p.payload
    ({ s with
        key := provided
        event_no := number
        event_type := p.data
        epoch_time := 0
        remaining_time := 0
        lap := 0
        num_cars := 0
        car_position := fun _ => 0
        car_info := fun _ _ => ⟨0, []⟩ },
     [SysCall.obtainKey number, SysCall.resetDec])
  else if p.type = SYS_KEY_FRAME then
    let number := decode_frame p.payload
    if s.frame = 0 then
      ({ s with frame := number },
       [SysCall.resetDec, SysCall.obtainFrame number, SysCall.resetDec])
    else
      ({ s with frame := number }, [SysCall.resetDec])
  else if p.type = SYS_WEATHER then
    if p.data = 0 then
      if 0 < p.len then
        ({ s with
            epoch_time := if s.epoch_time ≠ 0 then now else s.epoch_time
            remaining_time := parse_duration p.payload }, [])
      else
        ({ s with epoch_time := now }, [])
    else
      (s, [])
  else if p.type = SYS_TRACK_STATUS then
    if p.data = 1 then
      ({ s with flag := (p.payload.headD 0 : Int) - 48 }, [])
    else
      (s, [])
  else if p.type = SYS_COPYRIGHT then
    (s, [])
  else if p.type = SYS_NOTICE then
    (s, [])
  else
    (s, [])

/-- Modelled from the spec: RaceState is created empty at program start
(the initialisation code is not under src). -/
def initState : CurrentState :=
  { event_no := 0
    event_type := 0
    epoch_time := 0
    remaining_time := 0
    lap := 0
    flag := 0
    key := 0
    frame := 0
    num_cars := 0
    car_position := fun _ => 0
    car_info := fun _ _ => ⟨0, []⟩ }

/-- Board-row uniqueness: among the first `num_cars` entries, a non-zero
position is held by at most one car. -/
def rowUnique (s : CurrentState) : Prop :=
  ∀ i, i < s.num_cars → ∀ j, j < s.num_cars →
    s.car_position i ≠ 0 → s.car_position i = s.car_position j → i = j

lemma ensure_car_num_cars (s : CurrentState) (c : Nat) :
    (ensure_car s c).num_cars = max c s.num_cars := by
  unfold ensure_car
  split
  · next h =>
    show c = max c s.num_cars
    omega
  · next h =>
    show s.num_cars = max c s.num_cars
    omega

lemma ensure_car_pos (s : CurrentState) (c i : Nat) :
    (ensure_car s c).car_position i =
      if s.num_cars ≤ i ∧ i < c then 0 else s.car_position i := by
  unfold ensure_car
  split
  · rfl
  · next h =>
    rw [if_neg (by omega)]

lemma ensure_car_info (s : CurrentState) (c i : Nat) :
    (ensure_car s c).car_info i =
      if s.num_cars ≤ i ∧ i < c then (fun _ => ⟨0, []⟩) else s.car_info i := by
  unfold ensure_car
  split
  · rfl
  · next h =>
    rw [if_neg (by omega)]

/-- Growth preserves board-row uniqueness: the new entries all hold
position 0, the old ones are untouched. -/
lemma rowUnique_ensure_car (s : CurrentState) (c : Nat) (hu : rowUnique s) :
    rowUnique (ensure_car s c) := by
  intro i hi j hj hne heq
  rw [ensure_car_pos] at hne heq
  rw [ensure_car_pos s c j] at heq
  rw [ensure_car_num_cars] at hi hj
  by_cases h1 : s.num_cars ≤ i ∧ i < c
  · simp [h1] at hne
  · simp only [if_neg h1] at hne heq
    by_cases h2 : s.num_cars ≤ j ∧ j < c
    · simp only [if_pos h2] at heq
      exact absurd heq hne
    · simp only [if_neg h2] at heq
      exact hu i (by omega) j (by omega) hne heq

/-- The car reducer leaves `num_cars` at its post-growth value. -/
lemma handle_car_num_cars (s : CurrentState) (p : Packet) :
    (handle_car_packet s p).num_cars = (ensure_car s p.car).num_cars := by
  unfold handle_car_packet
  split
  · rfl
  · split
    · rfl
    · rfl

/-- Position table of the car reducer on a position-update packet. -/
lemma handle_car_pos_update (s : CurrentState) (p : Packet)
    (hp : p.type = CAR_POSITION_UPDATE) (i : Nat) :
    (handle_car_packet s p).car_position i =
      if i = p.car - 1 then p.data
      else if i < (ensure_car s p.car).num_cars ∧
              (ensure_car s p.car).car_position i = p.data then 0
      else (ensure_car s p.car).car_position i := by
  unfold handle_car_packet
  simp [hp]

/-- On non-position-update packets the car reducer leaves the position
table at its post-growth value. -/
lemma handle_car_pos_other (s : CurrentState) (p : Packet)
    (hp : p.type ≠ CAR_POSITION_UPDATE) :
    (handle_car_packet s p).car_position =
      (ensure_car s p.car).car_position := by
  unfold handle_car_packet
  simp only [if_neg hp]
  split
  · rfl
  · rfl

/-- The system reducer either keeps the position table and `num_cars`
unchanged, or (session start) zeroes `num_cars`. -/
lemma handle_system_pos (now provided : Nat) (s : CurrentState) (p : Packet) :
    ((handle_system_packet now provided s p).1.num_cars = s.num_cars ∧
     (handle_system_packet now provided s p).1.car_position = s.car_position) ∨
    (handle_system_packet now provided s p).1.num_cars = 0 := by
  unfold handle_system_packet
  by_cases h1 : p.type = SYS_EVENT_ID
  · simp [h1]
  · simp only [if_neg h1]
    split
    · split
      · exact Or.inl ⟨rfl, rfl⟩
      · exact Or.inl ⟨rfl, rfl⟩
    · split
      · split
        · split
          · exact Or.inl ⟨rfl, rfl⟩
          · exact Or.inl ⟨rfl, rfl⟩
        · exact Or.inl ⟨rfl, rfl⟩
      · split
        · split
          · exact Or.inl ⟨rfl, rfl⟩
          · exact Or.inl ⟨rfl, rfl⟩
        · split
          · exact Or.inl ⟨rfl, rfl⟩
          · split
            · exact Or.inl ⟨rfl, rfl⟩
            · exact Or.inl ⟨rfl, rfl⟩

/-- C1.  Board-row uniqueness: if among the first `num_cars` entries every
non-zero board position is held by at most one car, then this is still so
after processing any car-scoped packet (with its 1-based car id) and after
processing any system-scoped packet. -/
theorem board_row_uniqueness_preserved :
    (∀ s p, 1 ≤ p.car → rowUnique s → rowUnique (handle_car_packet s p)) ∧
    (∀ now provided s p, rowUnique s →
      rowUnique (handle_system_packet now provided s p).1) := by
  constructor
  · intro s p hcar hu
    have hu1 : rowUnique (ensure_car s p.car) := rowUnique_ensure_car s p.car hu
    by_cases hp : p.type = CAR_POSITION_UPDATE
    · intro i hi j hj hne heq
      rw [handle_car_num_cars] at hi hj
      rw [handle_car_pos_update s p hp] at hne heq
      rw [handle_car_pos_update s p hp j] at heq
      by_cases hi1 : i = p.car - 1
      · by_cases hj1 : j = p.car - 1
        · omega
        · -- i is the assigned car, j holds the same (non-zero) value
          simp only [if_pos hi1, if_neg hj1] at hne heq
          by_cases hj2 : j < (ensure_car s p.car).num_cars ∧
              (ensure_car s p.car).car_position j = p.data
          · simp only [if_pos hj2] at heq
            exact absurd heq hne
          · simp only [if_neg hj2] at heq
            exact absurd heq.symm (by
              intro hcontra
              exact hj2 ⟨hj, hcontra⟩)
      · by_cases hj1 : j = p.car - 1
        · simp only [if_neg hi1, if_pos hj1] at hne heq
          by_cases hi2 : i < (ensure_car s p.car).num_cars ∧
              (ensure_car s p.car).car_position i = p.data
          · simp only [if_pos hi2] at hne
            exact absurd rfl hne
          · simp only [if_neg hi2] at hne heq
            exact absurd heq (by
              intro hcontra
              exact hi2 ⟨hi, hcontra⟩)
        · simp only [if_neg hi1, if_neg hj1] at hne heq
          by_cases hi2 : i < (ensure_car s p.car).num_cars ∧
              (ensure_car s p.car).car_position i = p.data
          · simp only [if_pos hi2] at hne
            exact absurd rfl hne
          · simp only [if_neg hi2] at hne heq
            by_cases hj2 : j < (ensure_car s p.car).num_cars ∧
                (ensure_car s p.car).car_position j = p.data
            · simp only [if_pos hj2] at heq
              exact absurd heq hne
            · simp only [if_neg hj2] at heq
              exact hu1 i hi j hj hne heq
    · intro i hi j hj hne heq
      rw [handle_car_num_cars] at hi hj
      rw [handle_car_pos_other s p hp] at hne heq
      exact hu1 i hi j hj hne heq
  · intro now provided s p hu
    rcases handle_system_pos now provided s p with ⟨hn, hpos⟩ | hn
    · intro i hi j hj hne heq
      rw [hn] at hi hj
      rw [hpos] at hne heq
      exact hu i hi j hj hne heq
    · intro i hi
      rw [hn] at hi
      omega

/-- Witness for C1 at a concrete state and packets. -/
theorem board_row_uniqueness_preserved_witness :
    rowUnique (handle_car_packet initState
      ⟨2, CAR_POSITION_UPDATE, 1, -1, []⟩) ∧
    rowUnique (handle_system_packet 7 0 initState
      ⟨0, SYS_WEATHER, 0, 0, []⟩).1 := by
  have hinit : rowUnique initState := by
    intro i hi
    exact absurd hi (Nat.not_lt_zero i)
  exact ⟨board_row_uniqueness_preserved.1 initState
      ⟨2, CAR_POSITION_UPDATE, 1, -1, []⟩ (by decide) hinit,
    board_row_uniqueness_preserved.2 7 0 initState
      ⟨0, SYS_WEATHER, 0, 0, []⟩ hinit⟩

/-- A two-car state with car 1 on board row 3 and car 2 off the board. -/
def twoCarState : CurrentState :=
  { initState with
    num_cars := 2
    car_position := fun i => if i = 0 then 3 else 0 }

/-- C2.  A position-update packet first clears every car holding the
incoming position, then assigns `packet.data` to `packet.car`; in
particular, with car A on (non-zero) row `p.data` and the packet assigning
car B ≠ A to that row, car A ends at 0 and car B at `p.data`. -/
theorem position_update_clears_duplicates (s : CurrentState) (p : Packet)
    (hp : p.type = CAR_POSITION_UPDATE) (hcar : 1 ≤ p.car) :
    (∀ i, (handle_car_packet s p).car_position i =
        if i = p.car - 1 then p.data
        else if i < (ensure_car s p.car).num_cars ∧
                (ensure_car s p.car).car_position i = p.data then 0
        else (ensure_car s p.car).car_position i) ∧
    (∀ A, 1 ≤ A → A ≤ s.num_cars → A ≠ p.car →
      s.car_position (A - 1) = p.data →
      (handle_car_packet s p).car_position (A - 1) = 0 ∧
      (handle_car_packet s p).car_position (p.car - 1) = p.data) := by
  refine ⟨fun i => handle_car_pos_update s p hp i, fun A hA1 hA2 hAB hApos => ?_⟩
  have hne : A - 1 ≠ p.car - 1 := by omega
  have hlt : A - 1 < (ensure_car s p.car).num_cars := by
    rw [ensure_car_num_cars]
    omega
  have hval : (ensure_car s p.car).car_position (A - 1) = p.data := by
    rw [ensure_car_pos, if_neg (by omega)]
    exact hApos
  constructor
  · rw [handle_car_pos_update s p hp, if_neg hne, if_pos ⟨hlt, hval⟩]
  · rw [handle_car_pos_update s p hp, if_pos rfl]

/-- Witness for C2: car 1 holds row 3, a position update puts car 2 on
row 3; afterwards car 1 is off the board and car 2 holds row 3. -/
theorem position_update_clears_duplicates_witness :
    (handle_car_packet twoCarState
      ⟨2, CAR_POSITION_UPDATE, 3, -1, []⟩).car_position 0 = 0 ∧
    (handle_car_packet twoCarState
      ⟨2, CAR_POSITION_UPDATE, 3, -1, []⟩).car_position 1 = 3 := by
  have h := (position_update_clears_duplicates twoCarState
      ⟨2, CAR_POSITION_UPDATE, 3, -1, []⟩ rfl (by decide)).2 1
      (by decide) (by decide) (by decide) (by decide)
  simpa using h

/-- Counterexample to C3 as stated: a position-update packet for the new
car 1 (position 3) grows the table, but after `handle_car_packet` the new
car holds position 3, not 0 — the claim's "every CarId in (old num_cars,
N] has car_position 0" fails after the full reducer, because the packet's
own action runs after the growth step. -/
theorem entity_growth_counterexample :
    (handle_car_packet initState
      ⟨1, CAR_POSITION_UPDATE, 3, -1, []⟩).num_cars = 1 ∧
    (handle_car_packet initState
      ⟨1, CAR_POSITION_UPDATE, 3, -1, []⟩).car_position 0 = 3 := by
  decide

/-- C3 (amended).  Processing a car-scoped packet with `car = N >
num_cars` yields `num_cars = N`; the growth step itself (`ensure_car`,
lines 56-75) gives every new CarId position 0 and a fully zeroed atom
table and leaves the data of previously known cars unchanged; the
packet's own type-specific action is then applied on top of the grown
state. -/
theorem entity_growth_initialises (s : CurrentState) (p : Packet)
    (hgrow : s.num_cars < p.car) :
    ((handle_car_packet s p).num_cars = p.car ∧
     (ensure_car s p.car).num_cars = p.car) ∧
    (∀ i, s.num_cars ≤ i → i < p.car →
      (ensure_car s p.car).car_position i = 0 ∧
      ∀ t, (ensure_car s p.car).car_info i t = ⟨0, []⟩) ∧
    (∀ i, i < s.num_cars →
      (ensure_car s p.car).car_position i = s.car_position i ∧
      (ensure_car s p.car).car_info i = s.car_info i) := by
  have hn : (ensure_car s p.car).num_cars = p.car := by
    rw [ensure_car_num_cars]
    omega
  refine ⟨⟨by rw [handle_car_num_cars, hn], hn⟩, fun i h1 h2 => ?_, fun i h => ?_⟩
  · constructor
    · rw [ensure_car_pos, if_pos ⟨h1, h2⟩]
    · intro t
      rw [ensure_car_info, if_pos ⟨h1, h2⟩]
  · constructor
    · rw [ensure_car_pos, if_neg (by omega)]
    · rw [ensure_car_info, if_neg (by omega)]

/-- Witness for C3 (amended): growing the empty state to two cars. -/
theorem entity_growth_initialises_witness :
    (handle_car_packet initState
      ⟨2, CAR_POSITION_HISTORY, 0, -1, []⟩).num_cars = 2 ∧
    (ensure_car initState 2).car_position 1 = 0 ∧
    (ensure_car initState 2).car_info 1 5 = ⟨0, []⟩ := by
  have h := entity_growth_initialises initState
      ⟨2, CAR_POSITION_HISTORY, 0, -1, []⟩ (by decide)
  exact ⟨h.1.1, (h.2.1 1 (by decide) (by decide)).1,
    (h.2.1 1 (by decide) (by decide)).2 5⟩

/-- C4.  A SessionStart (SYS_EVENT_ID) packet decodes the event number
from the payload (first byte skipped, decimal accumulation), stores the
packet's data as the event type, zeroes the time bookkeeping, the lap and
the entity tables, and issues exactly one decryption-reset call (after
one key request) during the processing of this packet. -/
theorem session_start_reset (now provided : Nat) (s : CurrentState)
    (p : Packet) (hp : p.type = SYS_EVENT_ID) :
    (handle_system_packet now provided s p).1.event_no
        = decode_event_no p.payload ∧
    (handle_system_packet now provided s p).1.event_type = p.data ∧
    (handle_system_packet now provided s p).1.epoch_time = 0 ∧
    (handle_system_packet now provided s p).1.remaining_time = 0 ∧
    (handle_system_packet now provided s p).1.lap = 0 ∧
    (handle_system_packet now provided s p).1.num_cars = 0 ∧
    (handle_system_packet now provided s p).1.car_position = (fun _ => 0) ∧
    (handle_system_packet now provided s p).1.car_info = (fun _ _ => ⟨0, []⟩) ∧
    (handle_system_packet now provided s p).2
        = [SysCall.obtainKey (decode_event_no p.payload), SysCall.resetDec] ∧
    (handle_system_packet now provided s p).2.count SysCall.resetDec = 1 := by
  unfold handle_system_packet
  simp [hp, List.count_cons]

/-- Witness for C4 at a concrete SessionStart packet (payload `_12`). -/
theorem session_start_reset_witness :
    decode_event_no [95, 49, 50] = 12 ∧
    ((handle_system_packet 0 42 initState
        ⟨0, SYS_EVENT_ID, 1, 3, [95, 49, 50]⟩).1.event_no
          = decode_event_no [95, 49, 50] ∧
     (handle_system_packet 0 42 initState
        ⟨0, SYS_EVENT_ID, 1, 3, [95, 49, 50]⟩).1.event_type = 1 ∧
     (handle_system_packet 0 42 initState
        ⟨0, SYS_EVENT_ID, 1, 3, [95, 49, 50]⟩).1.epoch_time = 0 ∧
     (handle_system_packet 0 42 initState
        ⟨0, SYS_EVENT_ID, 1, 3, [95, 49, 50]⟩).1.remaining_time = 0 ∧
     (handle_system_packet 0 42 initState
        ⟨0, SYS_EVENT_ID, 1, 3, [95, 49, 50]⟩).1.lap = 0 ∧
     (handle_system_packet 0 42 initState
        ⟨0, SYS_EVENT_ID, 1, 3, [95, 49, 50]⟩).1.num_cars = 0 ∧
     (handle_system_packet 0 42 initState
        ⟨0, SYS_EVENT_ID, 1, 3, [95, 49, 50]⟩).1.car_position = (fun _ => 0) ∧
     (handle_system_packet 0 42 initState
        ⟨0, SYS_EVENT_ID, 1, 3, [95, 49, 50]⟩).1.car_info
          = (fun _ _ => ⟨0, []⟩) ∧
     (handle_system_packet 0 42 initState
        ⟨0, SYS_EVENT_ID, 1, 3, [95, 49, 50]⟩).2
          = [SysCall.obtainKey (decode_event_no [95, 49, 50]),
             SysCall.resetDec] ∧
     (handle_system_packet 0 42 initState
        ⟨0, SYS_EVENT_ID, 1, 3, [95, 49, 50]⟩).2.count SysCall.resetDec
          = 1) :=
  ⟨by decide, session_start_reset 0 42 initState
      ⟨0, SYS_EVENT_ID, 1, 3, [95, 49, 50]⟩ rfl⟩

lemma ensure_car_eq_self (s : CurrentState) (c : Nat)
    (h : ¬ s.num_cars < c) : ensure_car s c = s := by
  unfold ensure_car
  rw [if_neg h]

/-- C5 fails on the code: the data-atom arm copies the whole payload
(strcpy, line 115), so for every candidate storage capacity `c` there is
a packet whose stored text has length `c + 1 > c` — the code neither
rejects nor bounds oversized payloads (in C this strcpy writes past the
fixed `text` buffer of the CarAtom). -/
theorem atom_text_overflows_any_capacity (c : Nat) :
    ((handle_car_packet twoCarState
        ⟨1, 3, 7, (c : Int) + 1, List.replicate (c + 1) 48⟩).car_info 0 3).text
      = List.replicate (c + 1) 48 ∧
    c < ((handle_car_packet twoCarState
        ⟨1, 3, 7, (c : Int) + 1, List.replicate (c + 1) 48⟩).car_info 0 3).text.length ∧
    ((handle_car_packet twoCarState
        ⟨1, 3, 7, (c : Int) + 1, List.replicate (c + 1) 48⟩).car_info 0 3).data
      = 7 := by
  have hgrow : ¬ twoCarState.num_cars < 1 := by decide
  have htext : ((handle_car_packet twoCarState
      ⟨1, 3, 7, (c : Int) + 1, List.replicate (c + 1) 48⟩).car_info 0 3)
        = ⟨7, List.replicate (c + 1) 48⟩ := by
    unfold handle_car_packet
    rw [ensure_car_eq_self _ _ hgrow]
    have hle : (0 : Int) ≤ (c : Int) + 1 := by omega
    simp [CAR_POSITION_UPDATE, CAR_POSITION_HISTORY, hle]
  rw [htext]
  refine ⟨rfl, ?_, rfl⟩
  simp

/-- State after the first key-frame marker (frame number 5) from the
empty initial state. -/
def s_after_kf1 : CurrentState :=
  (handle_system_packet 0 0 initState ⟨0, SYS_KEY_FRAME, 0, 1, [5]⟩).1

/-- State after a SessionStart following the first key frame: a second
session has begun. -/
def s_after_session2 : CurrentState :=
  (handle_system_packet 0 0 s_after_kf1 ⟨0, SYS_EVENT_ID, 1, 2, [95, 49]⟩).1

/-- Counterexample to C6 as stated: SYS_EVENT_ID does not reset the
stored frame counter, so after a first session's key frame (frame 5) and
a SessionStart, the frame is still 5 — and the first KeyFrameMarker of
the new session issues zero snapshot requests instead of the claimed
exactly one. -/
theorem key_frame_session_counterexample :
    (handle_system_packet 0 0 initState ⟨0, SYS_KEY_FRAME, 0, 1, [5]⟩).2
      = [SysCall.resetDec, SysCall.obtainFrame 5, SysCall.resetDec] ∧
    s_after_session2.frame = 5 ∧
    (handle_system_packet 0 0 s_after_session2
        ⟨0, SYS_KEY_FRAME, 0, 1, [7]⟩).2 = [SysCall.resetDec] := by
  decide

/-- C6 (amended).  The snapshot bootstrap is guarded by the stored frame
counter, not by session boundaries: a KeyFrameMarker processed while
`frame = 0` issues exactly one key-frame-snapshot request (between two
decryption resets); one processed while `frame ≠ 0` issues zero snapshot
requests and only updates the frame counter (after one decryption
reset). SessionStart leaves `frame` unchanged, so a new session does not
re-enter the `frame = 0` state by itself. -/
theorem key_frame_snapshot_guard (now provided : Nat) (s : CurrentState)
    (p : Packet) (hp : p.type = SYS_KEY_FRAME) :
    (s.frame = 0 →
      (handle_system_packet now provided s p).2
        = [SysCall.resetDec, SysCall.obtainFrame (decode_frame p.payload),
           SysCall.resetDec] ∧
      (handle_system_packet now provided s p).1
        = { s with frame := decode_frame p.payload }) ∧
    (s.frame ≠ 0 →
      (handle_system_packet now provided s p).2 = [SysCall.resetDec] ∧
      (handle_system_packet now provided s p).1
        = { s with frame := decode_frame p.payload }) ∧
    (∀ q, q.type = SYS_EVENT_ID →
      (handle_system_packet now provided s q).1.frame = s.frame) := by
  refine ⟨fun h0 => ?_, fun h0 => ?_, fun q hq => ?_⟩
  · unfold handle_system_packet
    simp [hp, h0, SYS_KEY_FRAME, SYS_EVENT_ID]
  · unfold handle_system_packet
    simp [hp, h0, SYS_KEY_FRAME, SYS_EVENT_ID]
  · unfold handle_system_packet
    simp [hq]

/-- Witness for C6 (amended): from `frame = 0` one snapshot request; from
`frame = 5` none. -/
theorem key_frame_snapshot_guard_witness :
    (handle_system_packet 0 0 initState ⟨0, SYS_KEY_FRAME, 0, 1, [9]⟩).2
      = [SysCall.resetDec, SysCall.obtainFrame (decode_frame [9]),
         SysCall.resetDec] ∧
    (handle_system_packet 0 0 s_after_kf1 ⟨0, SYS_KEY_FRAME, 0, 1, [9]⟩).2
      = [SysCall.resetDec] :=
  ⟨((key_frame_snapshot_guard 0 0 initState
      ⟨0, SYS_KEY_FRAME, 0, 1, [9]⟩ rfl).1 (by decide)).1,
   ((key_frame_snapshot_guard 0 0 s_after_kf1
      ⟨0, SYS_KEY_FRAME, 0, 1, [9]⟩ rfl).2.1 (by decide)).1⟩

/-- C7.  A data-atom packet with negative `len` updates the addressed
atom's colour/status to `packet.data`, leaves that atom's text exactly as
it was, leaves every other atom untouched, and changes neither the
position table nor `num_cars`. -/
theorem colour_only_update (s : CurrentState) (p : Packet)
    (hlen : p.len < 0) (h0 : p.type ≠ CAR_POSITION_UPDATE)
    (h15 : p.type ≠ CAR_POSITION_HISTORY)
    (hcn : p.car ≤ s.num_cars) :
    (handle_car_packet s p).car_info (p.car - 1) p.type
      = ⟨p.data, (s.car_info (p.car - 1) p.type).text⟩ ∧
    (∀ i t, i ≠ p.car - 1 ∨ t ≠ p.type →
      (handle_car_packet s p).car_info i t = s.car_info i t) ∧
    (handle_car_packet s p).car_position = s.car_position ∧
    (handle_car_packet s p).num_cars = s.num_cars := by
  have hgrow : ¬ s.num_cars < p.car := by omega
  have hnotle : ¬ (0 : Int) ≤ p.len := by omega
  refine ⟨?_, fun i t hit => ?_, ?_, ?_⟩
  · unfold handle_car_packet
    rw [ensure_car_eq_self _ _ hgrow]
    simp [h0, h15, hnotle]
  · unfold handle_car_packet
    rw [ensure_car_eq_self _ _ hgrow]
    simp only [if_neg h0, if_neg h15]
    rcases hit with hi | ht
    · simp [hi]
    · by_cases hi : i = p.car - 1
      · simp [hi, ht]
      · simp [hi]
  · rw [handle_car_pos_other s p h0, ensure_car_eq_self _ _ hgrow]
  · rw [handle_car_num_cars, ensure_car_eq_self _ _ hgrow]

/-- Witness for C7: colour-only update of atom 3 of car 1 in the two-car
state. -/
theorem colour_only_update_witness :
    (handle_car_packet twoCarState ⟨1, 3, 9, -1, [1, 2, 3]⟩).car_info 0 3
      = ⟨9, (twoCarState.car_info 0 3).text⟩ ∧
    (handle_car_packet twoCarState ⟨1, 3, 9, -1, [1, 2, 3]⟩).car_info 1 3
      = twoCarState.car_info 1 3 := by
  have h := colour_only_update twoCarState ⟨1, 3, 9, -1, [1, 2, 3]⟩
    (by decide) (by decide) (by decide) (by decide)
  exact ⟨h.1, h.2.1 1 3 (Or.inl (by decide))⟩

/-- Counterexample to C8 as stated: a car-scoped packet whose type (16,
one past the car catalogue, which spans 0..15) is unknown is not ignored
— the reducer's default arm writes it as a data atom, changing the state
(in C this write is even out of the atom table's bounds). -/
theorem unknown_car_type_counterexample :
    ((handle_car_packet twoCarState ⟨1, 16, 7, -1, []⟩).car_info 0 16).data
      = 7 ∧
    (twoCarState.car_info 0 16).data = 0 := by
  decide

/-- C8 (amended).  Unknown system-scoped packet types, weather sub-fields
other than 0 and track-status sub-fields other than 1 are silent no-ops,
as is the car-scoped PositionHistory type (for an already-known car); but
a car-scoped packet of any type other than PositionUpdate and
PositionHistory is not ignored: the default arm writes it into the atom
table as a generic data atom. -/
theorem unknown_packet_handling (now provided : Nat) (s : CurrentState)
    (p : Packet) :
    (p.type ≠ SYS_EVENT_ID → p.type ≠ SYS_KEY_FRAME → p.type ≠ SYS_WEATHER →
     p.type ≠ SYS_TRACK_STATUS → p.type ≠ SYS_COPYRIGHT →
     p.type ≠ SYS_NOTICE →
      handle_system_packet now provided s p = (s, [])) ∧
    (p.type = SYS_WEATHER → p.data ≠ 0 →
      handle_system_packet now provided s p = (s, [])) ∧
    (p.type = SYS_TRACK_STATUS → p.data ≠ 1 →
      handle_system_packet now provided s p = (s, [])) ∧
    (p.type = CAR_POSITION_HISTORY → p.car ≤ s.num_cars →
      handle_car_packet s p = s) ∧
    (p.type ≠ CAR_POSITION_UPDATE → p.type ≠ CAR_POSITION_HISTORY →
      (handle_car_packet s p).car_info (p.car - 1) p.type
        = ⟨p.data,
           if 0 ≤ p.len then p.payload
           else ((ensure_car s p.car).car_info (p.car - 1) p.type).text⟩) := by
  refine ⟨fun h1 h2 h3 h4 h5 h6 => ?_, fun h1 h2 => ?_, fun h1 h2 => ?_,
    fun h1 h2 => ?_, fun h1 h2 => ?_⟩
  · unfold handle_system_packet
    simp [h1, h2, h3, h4, h5, h6]
  · unfold handle_system_packet
    simp [h1, h2, SYS_WEATHER, SYS_EVENT_ID, SYS_KEY_FRAME]
  · unfold handle_system_packet
    simp [h1, h2, SYS_TRACK_STATUS, SYS_EVENT_ID, SYS_KEY_FRAME, SYS_WEATHER]
  · unfold handle_car_packet
    rw [ensure_car_eq_self _ _ (by omega)]
    simp [h1, CAR_POSITION_HISTORY, CAR_POSITION_UPDATE]
  · unfold handle_car_packet
    simp [h1, h2]

/-- Witness for C8 (amended): an unknown system type is a no-op; a
PositionHistory packet for a known car is a no-op. -/
theorem unknown_packet_handling_witness :
    handle_system_packet 3 4 twoCarState ⟨0, 99, 0, -1, []⟩
      = (twoCarState, []) ∧
    handle_car_packet twoCarState ⟨1, CAR_POSITION_HISTORY, 0, -1, []⟩
      = twoCarState :=
  ⟨(unknown_packet_handling 3 4 twoCarState ⟨0, 99, 0, -1, []⟩).1
      (by decide) (by decide) (by decide) (by decide) (by decide) (by decide),
   (unknown_packet_handling 3 4 twoCarState
      ⟨1, CAR_POSITION_HISTORY, 0, -1, []⟩).2.2.2.1 rfl (by decide)⟩

/-- C9.  A weather packet with sub-field 0 and positive length parses the
payload by the colon-fold rule into total seconds, stores that as the
remaining session time, and refreshes `epoch_time` to the current
wall-clock time exactly when it was already non-zero (it stays 0
otherwise); `"1:02:03"` parses to 3723. -/
theorem weather_duration_update (now provided : Nat) (s : CurrentState)
    (p : Packet) (hp : p.type = SYS_WEATHER) (hd : p.data = 0)
    (hlen : 0 < p.len) :
    (handle_system_packet now provided s p).1.remaining_time
      = parse_duration p.payload ∧
    (s.epoch_time ≠ 0 →
      (handle_system_packet now provided s p).1.epoch_time = now) ∧
    (s.epoch_time = 0 →
      (handle_system_packet now provided s p).1.epoch_time = 0) ∧
    parse_duration [49, 58, 48, 50, 58, 48, 51] = 3723 := by
  refine ⟨?_, fun h => ?_, fun h => ?_, by decide⟩
  · unfold handle_system_packet
    simp [hp, hd, hlen, SYS_WEATHER, SYS_EVENT_ID, SYS_KEY_FRAME]
  · unfold handle_system_packet
    simp [hp, hd, hlen, h, SYS_WEATHER, SYS_EVENT_ID, SYS_KEY_FRAME]
  · unfold handle_system_packet
    simp [hp, hd, hlen, h, SYS_WEATHER, SYS_EVENT_ID, SYS_KEY_FRAME]

/-- Witness for C9: payload `1:02:03`, epoch previously non-zero. -/
theorem weather_duration_update_witness :
    (handle_system_packet 777 0 { initState with epoch_time := 5 }
        ⟨0, SYS_WEATHER, 0, 7, [49, 58, 48, 50, 58, 48, 51]⟩).1.remaining_time
      = parse_duration [49, 58, 48, 50, 58, 48, 51] ∧
    (handle_system_packet 777 0 { initState with epoch_time := 5 }
        ⟨0, SYS_WEATHER, 0, 7, [49, 58, 48, 50, 58, 48, 51]⟩).1.epoch_time
      = 777 ∧
    parse_duration [49, 58, 48, 50, 58, 48, 51] = 3723 := by
  have h := weather_duration_update 777 0 { initState with epoch_time := 5 }
    ⟨0, SYS_WEATHER, 0, 7, [49, 58, 48, 50, 58, 48, 51]⟩ rfl rfl (by decide)
  exact ⟨h.1, h.2.1 (by decide), h.2.2.2⟩

/-- C10.  A weather packet with sub-field 0 and `len = 0` takes the
no-payload branch, exactly like the negative sentinel: `epoch_time` is
set to the current wall-clock time, `remaining_time` is untouched, and no
collaborator call is made. -/
theorem weather_zero_length_epoch (now provided : Nat) (s : CurrentState)
    (p : Packet) (hp : p.type = SYS_WEATHER) (hd : p.data = 0)
    (hlen : p.len = 0) :
    (handle_system_packet now provided s p).1
      = { s with epoch_time := now } ∧
    (handle_system_packet now provided s p).1.remaining_time
      = s.remaining_time ∧
    (handle_system_packet now provided s p).2 = [] := by
  have h1 : (handle_system_packet now provided s p).1
      = { s with epoch_time := now } := by
    unfold handle_system_packet
    simp [hp, hd, hlen, SYS_WEATHER, SYS_EVENT_ID, SYS_KEY_FRAME]
  refine ⟨h1, by rw [h1], ?_⟩
  unfold handle_system_packet
  simp [hp, hd, hlen, SYS_WEATHER, SYS_EVENT_ID, SYS_KEY_FRAME]

/-- Witness for C10: a zero-length sub-field-0 weather packet on a state
with remaining time 55. -/
theorem weather_zero_length_epoch_witness :
    (handle_system_packet 123 0 { initState with remaining_time := 55 }
        ⟨0, SYS_WEATHER, 0, 0, []⟩).1
      = { { initState with remaining_time := 55 } with epoch_time := 123 } ∧
    (handle_system_packet 123 0 { initState with remaining_time := 55 }
        ⟨0, SYS_WEATHER, 0, 0, []⟩).1.remaining_time = 55 ∧
    (handle_system_packet 123 0 { initState with remaining_time := 55 }
        ⟨0, SYS_WEATHER, 0, 0, []⟩).2 = [] := by
  have h := weather_zero_length_epoch 123 0
    { initState with remaining_time := 55 } ⟨0, SYS_WEATHER, 0, 0, []⟩
    rfl rfl rfl
  exact ⟨h.1, h.2.1, h.2.2⟩
